import Mathlib

/-!
Shallow embedding of `src/pureba.py` (webcam capture with brightness/contrast
adjustment) and verification of the specification claims about it.

Numbers that are Python floats in the source (brightness, contrast) are
modelled as rationals; pixel channel samples (numpy uint8) are naturals
bounded by 255.
-/

namespace Pureba

/-- `ImageSettings` dataclass (pureba.py lines 16-20): brightness offset and
contrast factor.  Defaults are brightness = 0, contrast = 0.8. -/
structure ImageSettings where
  brightness : ℚ
  contrast : ℚ
deriving Repr, DecidableEq

/-- Default-constructed `ImageSettings()` as built in `WebcamApp.__init__`
(line 163): brightness = 0, contrast = 0.8. -/
def ImageSettings.init : ImageSettings := { brightness := 0, contrast := 8/10 }

/-- OpenCV `cvRound`: round to nearest integer, ties to even (banker's
rounding), as used by `saturate_cast` inside `cv2.convertScaleAbs`. -/
def cvRound (q : ℚ) : ℤ :=
  let f := ⌊q⌋
  let frac := q - (f : ℚ)
  if frac < 1/2 then f
  else if 1/2 < frac then f + 1
  else if f % 2 = 0 then f else f + 1

/-- One channel sample under `cv2.convertScaleAbs(image, alpha, beta)`
(pureba.py lines 107-111): OpenCV computes
`saturate_cast<uchar>(|alpha * s + beta|)`, i.e. the ABSOLUTE VALUE of the
affine map, rounded and saturated to [0, 255]. -/
def convertScaleAbsSample (alpha beta : ℚ) (s : ℕ) : ℕ :=
  (max 0 (min 255 (cvRound |alpha * (s : ℚ) + beta|))).toNat

/-- A frame: rows of pixels, each pixel a list of channel samples
(numpy uint8 array of shape height x width x channels). -/
abbrev Frame := List (List (List ℕ))

/-- Apply a per-sample function to every channel sample of a frame. -/
def mapFrame (f : ℕ → ℕ) (img : Frame) : Frame :=
  img.map (fun row => row.map (fun px => px.map f))

/-- The shape (per-row list of channel counts) of a frame; two frames with
equal `dims` have identical dimensions. -/
def dims (img : Frame) : List (List ℕ) :=
  img.map (fun row => row.map List.length)

/-- `cv2.convertScaleAbs(image, alpha, beta)` on a whole frame. -/
def convertScaleAbs (img : Frame) (alpha beta : ℚ) : Frame :=
  mapFrame (convertScaleAbsSample alpha beta) img

/-- `WebcamCapture.adjust_brightness_contrast` (lines 93-117) with the
`try/except` made explicit: the cv2 call is a fallible transform; if it
raises (returns `none`), the original image is returned unchanged. -/
def adjust_with (tr : Frame → ImageSettings → Option Frame)
    (image : Frame) (settings : ImageSettings) : Frame :=
  match tr image settings with
  | some adjusted => adjusted
  | none => image

/-- `WebcamCapture.adjust_brightness_contrast` (lines 93-117) on a valid
frame, where `cv2.convertScaleAbs` succeeds: contrast is the `alpha`
factor, brightness the `beta` offset. -/
def adjust_brightness_contrast (image : Frame) (settings : ImageSettings) : Frame :=
  adjust_with (fun img st => some (convertScaleAbs img st.contrast st.brightness))
    image settings

/-- The pixel formula as the spec states it (spec section 4.2): each sample
`s` becomes `clamp(round(contrast * s + brightness), 0, 255)` - written from
the spec's words, with NO absolute value, for comparison with the code. -/
def specPixel (settings : ImageSettings) (s : ℕ) : ℕ :=
  (max 0 (min 255 (cvRound (settings.contrast * (s : ℚ) + settings.brightness)))).toNat

/-- Every channel sample of the frame is a valid uint8 value. -/
def WellFormed (img : Frame) : Prop :=
  ∀ row ∈ img, ∀ px ∈ row, ∀ s ∈ px, s ≤ 255

instance (img : Frame) : Decidable (WellFormed img) :=
  inferInstanceAs (Decidable (∀ row ∈ img, ∀ px ∈ row, ∀ s ∈ px, s ≤ 255))

/-! ### Settings mutators (run_interactive_mode, lines 221-232) -/

/-- Key `+`/`=` (line 222): `brightness = min(100, brightness + 5)`. -/
def increase_brightness (b : ℚ) : ℚ := min 100 (b + 5)

/-- Key `-` (line 225): `brightness = max(-100, brightness - 5)`. -/
def decrease_brightness (b : ℚ) : ℚ := max (-100) (b - 5)

/-- Key `[` (line 228): `contrast = max(0.1, contrast - 0.1)`. -/
def decrease_contrast (c : ℚ) : ℚ := max (1/10) (c - 1/10)

/-- Key `]` (line 231): `contrast = min(3.0, contrast + 0.1)`. -/
def increase_contrast (c : ℚ) : ℚ := min 3 (c + 1/10)

/-- Mutable state of `WebcamApp` touched by the interactive loop: the
settings and the saved-frame counter `frame_count`, plus the loop flag. -/
structure AppState where
  settings : ImageSettings
  frame_count : ℕ
  running : Bool
deriving Repr, DecidableEq

/-- `WebcamApp.__init__` (lines 160-164) followed by entering the loop:
default settings, counter 0 (line 194), `running = True` (line 193). -/
def AppState.init : AppState :=
  { settings := ImageSettings.init, frame_count := 0, running := true }

/-- The key dispatch of one interactive iteration (lines 215-232), with
`key` the masked key code.  `q` = 113 stops the loop, `s` = 115 saves and
bumps the counter, `+` = 43 / `=` = 61, `-` = 45, `[` = 91, `]` = 93 are
the four settings mutators; any other key leaves the state unchanged. -/
def handle_key (key : ℕ) (st : AppState) : AppState :=
  if key = 113 then { st with running := false }
  else if key = 115 then { st with frame_count := st.frame_count + 1 }
  else if key = 43 ∨ key = 61 then
    { st with settings :=
        { st.settings with brightness := increase_brightness st.settings.brightness } }
  else if key = 45 then
    { st with settings :=
        { st.settings with brightness := decrease_brightness st.settings.brightness } }
  else if key = 91 then
    { st with settings :=
        { st.settings with contrast := decrease_contrast st.settings.contrast } }
  else if key = 93 then
    { st with settings :=
        { st.settings with contrast := increase_contrast st.settings.contrast } }
  else st

/-- State after a whole sequence of key presses starting from `st`. -/
def run_keys (st : AppState) (keys : List ℕ) : AppState :=
  keys.foldl (fun s k => handle_key k s) st

/-- The spec invariant (section 3): brightness in [-100, 100] and contrast
in [0.1, 3.0]. -/
def InRange (s : ImageSettings) : Prop :=
  -100 ≤ s.brightness ∧ s.brightness ≤ 100 ∧ 1/10 ≤ s.contrast ∧ s.contrast ≤ 3

instance (s : ImageSettings) : Decidable (InRange s) :=
  inferInstanceAs
    (Decidable (-100 ≤ s.brightness ∧ s.brightness ≤ 100 ∧ 1/10 ≤ s.contrast ∧ s.contrast ≤ 3))

/-! ### Capture pipeline state machine (WebcamCapture, lines 23-154) -/

/-- Python exceptions as far as the handlers distinguish them:
`KeyboardInterrupt` is not an `Exception` subclass, so `except Exception`
does not catch it. -/
inductive Exc where
  | keyboardInterrupt : Exc
  | exception : Exc
deriving Repr, DecidableEq

/-- Result of a Python call: a value, or a raised exception. -/
abbrev PyResult (α : Type) := Except Exc α

/-- Observable state of a `WebcamCapture`: `is_initialized` flag and
whether `self.cap` holds a device handle (`cap is not None`). -/
structure WebcamState where
  is_initialized : Bool
  cap : Bool
deriving Repr, DecidableEq

/-- `WebcamCapture.__init__` (lines 26-42): `cap = None`,
`is_initialized = False`. -/
def WebcamState.init : WebcamState := { is_initialized := false, cap := false }

/-- `initialize_camera` (lines 44-68): construct the handle, test
`isOpened` (outcome `open_ok` from the environment); on success set the
resolution and the flag and return `True`, else return `False` with the
handle still stored. -/
def initialize_camera (open_ok : Bool) (s : WebcamState) : Bool × WebcamState :=
  let s1 := { s with cap := true }
  if open_ok then (true, { s1 with is_initialized := true })
  else (false, s1)

/-- `capture_frame` (lines 70-91): `None` when not initialized or no
handle; otherwise `cap.read()` yields `ret` (or raises).  A raised
`Exception` is caught and mapped to `None`; `KeyboardInterrupt` escapes.
No field of the state is ever assigned. -/
def capture_frame (read_res : PyResult Bool) (frame : Frame) (s : WebcamState) :
    PyResult (Option Frame) × WebcamState :=
  if ¬(s.is_initialized && s.cap) then (.ok none, s)
  else
    match read_res with
    | .ok true => (.ok (some frame), s)
    | .ok false => (.ok none, s)
    | .error .exception => (.ok none, s)
    | .error .keyboardInterrupt => (.error .keyboardInterrupt, s)

/-- `adjust_brightness_contrast` as called in the pipeline (lines 105-117):
if the cv2 call succeeds the adjusted frame is returned, a raised
`Exception` is caught and the original frame returned, and a
`KeyboardInterrupt` escapes. -/
def adjust_step (adjust_res : PyResult Unit) (image : Frame) (settings : ImageSettings) :
    PyResult Frame :=
  match adjust_res with
  | .ok _ => .ok (adjust_brightness_contrast image settings)
  | .error .exception => .ok image
  | .error .keyboardInterrupt => .error .keyboardInterrupt

/-- `save_image` (lines 119-147): `cv2.imwrite` yields a success flag (or
raises); a raised `Exception` is caught and mapped to `False`;
`KeyboardInterrupt` escapes. -/
def save_image (write_res : PyResult Bool) : PyResult Bool :=
  match write_res with
  | .ok b => .ok b
  | .error .exception => .ok false
  | .error .keyboardInterrupt => .error .keyboardInterrupt

/-- `release_camera` (lines 149-154): when a handle is present, release it
and clear `is_initialized`. -/
def release_camera (s : WebcamState) : WebcamState :=
  if s.cap then { s with is_initialized := false } else s

/-- Outcomes of the external collaborators during one single-shot run. -/
structure Env where
  open_ok : Bool
  read_res : PyResult Bool
  adjust_res : PyResult Unit
  write_res : PyResult Bool
  frame : Frame

/-- `WebcamApp.capture_single_image` (lines 240-270): `setup()`; on
failure return `False` at once; otherwise run the
capture-adjust-save body inside `try`, with `finally: self.cleanup()`
releasing the camera on every exit of the body, normal or raised. -/
def capture_single_image (env : Env) (settings : ImageSettings) (s0 : WebcamState) :
    PyResult Bool × WebcamState :=
  let r := initialize_camera env.open_ok s0
  if r.1 then
    let body : PyResult Bool × WebcamState :=
      match capture_frame env.read_res env.frame r.2 with
      | (.error e, s2) => (.error e, s2)
      | (.ok none, s2) => (.ok false, s2)
      | (.ok (some f), s2) =>
        match adjust_step env.adjust_res f settings with
        | .error e => (.error e, s2)
        | .ok _processed =>
          match save_image env.write_res with
          | .error e => (.error e, s2)
          | .ok ok => (.ok ok, s2)
    (body.1, release_camera body.2)
  else (.ok false, r.2)

/-! ### Filenames and the main entry point (lines 278-310) -/

/-- Single-shot filename selection in `main` (lines 292-294): the name the
user typed, or the fixed default `captura_unica.jpg` when empty.  The
`time` argument stands for the clock time of the invocation, taken here
only so that claims about distinct clock times can be stated: the source
never reads the clock when naming the single-shot file. -/
def single_shot_filename (time : ℕ) (user_input : String) : String :=
  let _ := time
  if user_input = "" then "captura_unica.jpg" else user_input

/-- Interactive-mode filename (line 218): `imagen_NNNN.jpg` keyed by the
saved-frame counter. -/
def interactive_filename (frame_count : ℕ) : String :=
  "imagen_" ++ toString frame_count ++ ".jpg"

/-- Inputs and collaborator outcomes of one `main` run. -/
structure MainEnv where
  choice : String
  filename_input : String
  interactive_res : PyResult Unit
  env : Env

/-- The `try` body of `main` (lines 286-301): dispatch on the mode choice;
mode `2` runs `capture_single_image` on a freshly constructed app (default
settings, uninitialized camera) and prints the outcome; any other choice
prints a message.  `interactive_res` is the outcome of
`run_interactive_mode`, whose own handlers have already caught
`KeyboardInterrupt` internally. -/
def main_body (m : MainEnv) : PyResult Unit :=
  if m.choice = "1" then m.interactive_res
  else if m.choice = "2" then
    match (capture_single_image m.env ImageSettings.init WebcamState.init).1 with
    | .ok _ => .ok ()
    | .error e => .error e
  else .ok ()

/-- `main` (lines 278-306): the body wrapped in
`except KeyboardInterrupt` / `except Exception`, both of which print a
message and return normally. -/
def main (m : MainEnv) : PyResult Unit :=
  match main_body m with
  | .ok _ => .ok ()
  | .error .keyboardInterrupt => .ok ()
  | .error .exception => .ok ()

/-- CPython process exit status: 0 when the program returns normally, 1
when an uncaught exception terminates it.  The script calls `main()` with
no `sys.exit`, so the exit code is determined by `main`'s outcome. -/
def process_exit_code (r : PyResult Unit) : ℕ :=
  match r with
  | .ok _ => 0
  | .error _ => 1

/-- Exit code of one run of the script. -/
def main_exit_code (m : MainEnv) : ℕ := process_exit_code (main m)

/-! ### Derived definitions used to state the claims -/

/-- A sequence of brightness adjustments: `true` is the increase key,
`false` the decrease key, each with the fixed step 5. -/
def brightness_run (b : ℚ) (ops : List Bool) : ℚ :=
  ops.foldl (fun x o => if o then increase_brightness x else decrease_brightness x) b

/-- A sequence of contrast adjustments: `true` is the increase key,
`false` the decrease key, each with the fixed step 0.1. -/
def contrast_run (c : ℚ) (ops : List Bool) : ℚ :=
  ops.foldl (fun x o => if o then increase_contrast x else decrease_contrast x) c

/-- The webcam state together with the app's settings: everything the
pipeline can observe around a capture call. -/
structure PipelineState where
  webcam : WebcamState
  settings : ImageSettings
deriving Repr, DecidableEq

/-- `frame = self.webcam.capture_frame()` (lines 199 and 255) as a step on
the full pipeline state: only the webcam substate is passed to the call,
the settings are not an argument at all. -/
def app_capture_frame (read_res : PyResult Bool) (frame : Frame) (ps : PipelineState) :
    PyResult (Option Frame) × PipelineState :=
  let r := capture_frame read_res frame ps.webcam
  (r.1, { ps with webcam := r.2 })

/-- An environment where the device fails to open and everything else
would succeed. -/
def envOpenFail : Env :=
  { open_ok := false, read_res := .ok true, adjust_res := .ok (),
    write_res := .ok true, frame := [] }

/-- An environment where the device opens but the read yields no frame. -/
def envReadFail : Env :=
  { open_ok := true, read_res := .ok false, adjust_res := .ok (),
    write_res := .ok true, frame := [] }

/-- A `main` run choosing single-shot mode against a device that fails to
open. -/
def mainEnvFail : MainEnv :=
  { choice := "2", filename_input := "", interactive_res := .ok (), env := envOpenFail }

/-- A ready pipeline state: camera initialized, default settings. -/
def psReady : PipelineState :=
  { webcam := { is_initialized := true, cap := true }, settings := ImageSettings.init }

/-! ### Supporting lemmas -/

theorem cvRound_intCast (n : ℤ) : cvRound (n : ℚ) = n := by
  simp only [cvRound, Int.floor_intCast, sub_self]
  norm_num

theorem convertScaleAbsSample_int (alpha beta : ℚ) (s : ℕ) (n : ℤ)
    (h : alpha * (s : ℚ) + beta = (n : ℚ)) :
    convertScaleAbsSample alpha beta s = (max 0 (min 255 |n|)).toNat := by
  unfold convertScaleAbsSample
  rw [h, ← Int.cast_abs, cvRound_intCast]

theorem specPixel_int (st : ImageSettings) (s : ℕ) (n : ℤ)
    (h : st.contrast * (s : ℚ) + st.brightness = (n : ℚ)) :
    specPixel st s = (max 0 (min 255 n)).toNat := by
  unfold specPixel
  rw [h, cvRound_intCast]

theorem convertScaleAbsSample_identity (s : ℕ) (hs : s ≤ 255) :
    convertScaleAbsSample 1 0 s = s := by
  rw [convertScaleAbsSample_int 1 0 s (s : ℤ) (by push_cast; ring)]
  rw [Int.abs_natCast]
  omega

theorem list_map_eq_self {α : Type} (f : α → α) (l : List α)
    (h : ∀ a ∈ l, f a = a) : l.map f = l := by
  induction l with
  | nil => rfl
  | cons a t ih =>
    simp only [List.map_cons]
    rw [h a (List.mem_cons_self a t), ih (fun x hx => h x (List.mem_cons_of_mem a hx))]

theorem mapFrame_eq_self (f : ℕ → ℕ) (img : Frame)
    (h : ∀ row ∈ img, ∀ px ∈ row, ∀ s ∈ px, f s = s) : mapFrame f img = img := by
  unfold mapFrame
  apply list_map_eq_self
  intro row hrow
  apply list_map_eq_self
  intro px hpx
  apply list_map_eq_self
  intro s hs
  exact h row hrow px hpx s hs

theorem dims_mapFrame (f : ℕ → ℕ) (img : Frame) : dims (mapFrame f img) = dims img := by
  simp [dims, mapFrame, List.map_map, Function.comp_def, List.length_map]

theorem increase_brightness_bounds {b : ℚ} (h1 : -100 ≤ b) (h2 : b ≤ 100) :
    -100 ≤ increase_brightness b ∧ increase_brightness b ≤ 100 :=
  ⟨le_min (by norm_num) (by linarith), min_le_left _ _⟩

theorem decrease_brightness_bounds {b : ℚ} (h1 : -100 ≤ b) (h2 : b ≤ 100) :
    -100 ≤ decrease_brightness b ∧ decrease_brightness b ≤ 100 :=
  ⟨le_max_left _ _, max_le (by norm_num) (by linarith)⟩

theorem increase_contrast_bounds {c : ℚ} (h1 : 1/10 ≤ c) (h2 : c ≤ 3) :
    1/10 ≤ increase_contrast c ∧ increase_contrast c ≤ 3 :=
  ⟨le_min (by norm_num) (by linarith), min_le_left _ _⟩

theorem decrease_contrast_bounds {c : ℚ} (h1 : 1/10 ≤ c) (h2 : c ≤ 3) :
    1/10 ≤ decrease_contrast c ∧ decrease_contrast c ≤ 3 :=
  ⟨le_max_left _ _, max_le (by norm_num) (by linarith)⟩

theorem handle_key_inRange (k : ℕ) (st : AppState) (h : InRange st.settings) :
    InRange (handle_key k st).settings := by
  unfold InRange at h
  obtain ⟨hb1, hb2, hc1, hc2⟩ := h
  unfold handle_key InRange
  split_ifs with h1 h2 h3 h4 h5 h6
  · exact ⟨hb1, hb2, hc1, hc2⟩
  · exact ⟨hb1, hb2, hc1, hc2⟩
  · exact ⟨(increase_brightness_bounds hb1 hb2).1, (increase_brightness_bounds hb1 hb2).2, hc1, hc2⟩
  · exact ⟨(decrease_brightness_bounds hb1 hb2).1, (decrease_brightness_bounds hb1 hb2).2, hc1, hc2⟩
  · exact ⟨hb1, hb2, (decrease_contrast_bounds hc1 hc2).1, (decrease_contrast_bounds hc1 hc2).2⟩
  · exact ⟨hb1, hb2, (increase_contrast_bounds hc1 hc2).1, (increase_contrast_bounds hc1 hc2).2⟩
  · exact ⟨hb1, hb2, hc1, hc2⟩

theorem run_keys_inRange (keys : List ℕ) (st : AppState) (h : InRange st.settings) :
    InRange (run_keys st keys).settings := by
  induction keys generalizing st with
  | nil => exact h
  | cons k ks ih => exact ih (handle_key k st) (handle_key_inRange k st h)

theorem brightness_run_bounds (ops : List Bool) (b : ℚ) (h1 : -100 ≤ b) (h2 : b ≤ 100) :
    -100 ≤ brightness_run b ops ∧ brightness_run b ops ≤ 100 := by
  induction ops generalizing b with
  | nil => exact ⟨h1, h2⟩
  | cons o os ih =>
    cases o
    · exact ih _ (decrease_brightness_bounds h1 h2).1 (decrease_brightness_bounds h1 h2).2
    · exact ih _ (increase_brightness_bounds h1 h2).1 (increase_brightness_bounds h1 h2).2

theorem contrast_run_bounds (ops : List Bool) (c : ℚ) (h1 : 1/10 ≤ c) (h2 : c ≤ 3) :
    1/10 ≤ contrast_run c ops ∧ contrast_run c ops ≤ 3 := by
  induction ops generalizing c with
  | nil => exact ⟨h1, h2⟩
  | cons o os ih =>
    cases o
    · exact ih _ (decrease_contrast_bounds h1 h2).1 (decrease_contrast_bounds h1 h2).2
    · exact ih _ (increase_contrast_bounds h1 h2).1 (increase_contrast_bounds h1 h2).2

theorem capture_frame_fail (read_res : PyResult Bool) (frame : Frame) (s : WebcamState)
    (h : s.is_initialized = false ∨ s.cap = false ∨ read_res = .ok false) :
    capture_frame read_res frame s = (.ok none, s) := by
  unfold capture_frame
  rcases h with h | h | h <;> simp [h]

theorem capture_single_image_state (env : Env) (settings : ImageSettings) (s0 : WebcamState)
    (ho : env.open_ok = true) :
    (capture_single_image env settings s0).2 = { is_initialized := false, cap := true } := by
  rcases env with ⟨op, rr, ar, wr, fr⟩
  simp only at ho
  subst ho
  rcases rr with e | b
  · cases e <;>
      simp [capture_single_image, initialize_camera, capture_frame, adjust_step,
        save_image, release_camera]
  · cases b
    · simp [capture_single_image, initialize_camera, capture_frame, adjust_step,
        save_image, release_camera]
    · rcases ar with e2 | u
      · cases e2
        · simp [capture_single_image, initialize_camera, capture_frame, adjust_step,
            save_image, release_camera]
        · rcases wr with e3 | b3
          · cases e3 <;>
              simp [capture_single_image, initialize_camera, capture_frame, adjust_step,
                save_image, release_camera]
          · simp [capture_single_image, initialize_camera, capture_frame, adjust_step,
              save_image, release_camera]
      · rcases wr with e3 | b3
        · cases e3 <;>
            simp [capture_single_image, initialize_camera, capture_frame, adjust_step,
              save_image, release_camera]
        · simp [capture_single_image, initialize_camera, capture_frame, adjust_step,
            save_image, release_camera]

/-! ### Claim theorems -/

/-- C1 (counterexample): the claimed per-sample formula
`clamp(round(contrast * s + brightness), 0, 255)` does not match the code.
`cv2.convertScaleAbs` takes the absolute value before saturating: at sample
10 with contrast 1 and brightness -50 the code produces |10 - 50| = 40,
while the claimed formula clamps -40 to 0. -/
theorem C1_claim_counterexample :
    adjust_brightness_contrast [[[10]]] { brightness := -50, contrast := 1 } = [[[40]]] ∧
    mapFrame (specPixel { brightness := -50, contrast := 1 }) [[[10]]] = [[[0]]] ∧
    adjust_brightness_contrast [[[10]]] { brightness := -50, contrast := 1 } ≠
      mapFrame (specPixel { brightness := -50, contrast := 1 }) [[[10]]] := by
  have h1 : convertScaleAbsSample 1 (-50) 10 = 40 := by
    rw [convertScaleAbsSample_int 1 (-50) 10 (-40) (by push_cast; norm_num)]
    decide
  have h2 : specPixel { brightness := -50, contrast := 1 } 10 = 0 := by
    rw [specPixel_int { brightness := -50, contrast := 1 } 10 (-40) (by push_cast; norm_num)]
    decide
  have ha : adjust_brightness_contrast [[[10]]] { brightness := -50, contrast := 1 } = [[[40]]] := by
    simp [adjust_brightness_contrast, adjust_with, convertScaleAbs, mapFrame, h1]
  have hb : mapFrame (specPixel { brightness := -50, contrast := 1 }) [[[10]]] = [[[0]]] := by
    simp [mapFrame, h2]
  refine ⟨ha, hb, ?_⟩
  rw [ha, hb]
  decide

/-- C1 (amended): for every frame and settings, the transform yields a
frame of identical dimensions in which each channel sample `s` becomes
`clamp(round(|contrast * s + brightness|), 0, 255)` - the ABSOLUTE VALUE
of the affine map, as computed by `cv2.convertScaleAbs`; in particular a
sample of 250 with contrast 1.0 and brightness 50 yields 255. -/
theorem C1_amended_transform (img : Frame) (settings : ImageSettings) :
    adjust_brightness_contrast img settings =
      mapFrame
        (fun s =>
          (max 0 (min 255 (cvRound |settings.contrast * (s : ℚ) + settings.brightness|))).toNat)
        img ∧
    dims (adjust_brightness_contrast img settings) = dims img ∧
    convertScaleAbsSample 1 50 250 = 255 := by
  refine ⟨rfl, dims_mapFrame _ img, ?_⟩
  rw [convertScaleAbsSample_int 1 50 250 300 (by push_cast; norm_num)]
  decide

/-- C2: starting from the initial settings (brightness 0, contrast 0.8),
after any sequence of key presses handled by the interactive loop the
brightness stays in [-100, 100] and the contrast in [0.1, 3.0]. -/
theorem C2_settings_invariant (keys : List ℕ) :
    InRange (run_keys AppState.init keys).settings :=
  run_keys_inRange keys AppState.init
    (by norm_num [InRange, AppState.init, ImageSettings.init])

/-- C3: in single-shot mode, once initialization has succeeded, every exit
path of `capture_single_image` (successful save, failed capture, failed
save, or an exception raised mid-pipeline) leaves the camera released,
i.e. `is_initialized` is false in the final state. -/
theorem C3_release_on_all_paths (env : Env) (settings : ImageSettings) (s0 : WebcamState)
    (h : (initialize_camera env.open_ok s0).1 = true) :
    ((capture_single_image env settings s0).2).is_initialized = false := by
  have hfst : (initialize_camera env.open_ok s0).1 = env.open_ok := by
    unfold initialize_camera
    cases env.open_ok <;> rfl
  have ho : env.open_ok = true := by rw [hfst] at h; exact h
  rw [capture_single_image_state env settings s0 ho]

/-- C3 witness: a concrete run (device opens, read fails) ends released. -/
theorem C3_release_witness :
    (initialize_camera envReadFail.open_ok WebcamState.init).1 = true ∧
    ((capture_single_image envReadFail ImageSettings.init WebcamState.init).2).is_initialized =
      false :=
  ⟨rfl, C3_release_on_all_paths envReadFail ImageSettings.init WebcamState.init rfl⟩

/-- C4: brightness adjustment with step 5: increase yields
`min(100, current + 5)`, decrease yields `max(-100, current - 5)`, any
sequence of adjustments from an in-range value stays in [-100, 100], and
starting at 95 four increases yield 100. -/
theorem C4_brightness_adjustment (b : ℚ) (h1 : -100 ≤ b) (h2 : b ≤ 100) (ops : List Bool) :
    increase_brightness b = min 100 (b + 5) ∧
    decrease_brightness b = max (-100) (b - 5) ∧
    -100 ≤ brightness_run b ops ∧ brightness_run b ops ≤ 100 ∧
    increase_brightness (increase_brightness (increase_brightness (increase_brightness 95))) =
      100 := by
  refine ⟨rfl, rfl, (brightness_run_bounds ops b h1 h2).1, (brightness_run_bounds ops b h1 h2).2, ?_⟩
  norm_num [increase_brightness, min_def]

/-- C4 witness: the statement instantiated at 95 with four increases. -/
theorem C4_brightness_witness :
    (-100 ≤ (95 : ℚ)) ∧ ((95 : ℚ) ≤ 100) ∧
    (increase_brightness 95 = min 100 ((95 : ℚ) + 5) ∧
     decrease_brightness 95 = max (-100) ((95 : ℚ) - 5) ∧
     -100 ≤ brightness_run 95 [true, true, true, true] ∧
     brightness_run 95 [true, true, true, true] ≤ 100 ∧
     increase_brightness (increase_brightness (increase_brightness (increase_brightness 95))) =
       100) :=
  ⟨by norm_num, by norm_num,
    C4_brightness_adjustment 95 (by norm_num) (by norm_num) [true, true, true, true]⟩

/-- C5: contrast adjustment with step 0.1: increase yields
`min(3.0, current + 0.1)`, decrease yields `max(0.1, current - 0.1)`, any
sequence of adjustments from an in-range value stays in [0.1, 3.0], and
starting at 0.2 three decreases yield exactly 0.1. -/
theorem C5_contrast_adjustment (c : ℚ) (h1 : 1/10 ≤ c) (h2 : c ≤ 3) (ops : List Bool) :
    increase_contrast c = min 3 (c + 1/10) ∧
    decrease_contrast c = max (1/10) (c - 1/10) ∧
    1/10 ≤ contrast_run c ops ∧ contrast_run c ops ≤ 3 ∧
    decrease_contrast (decrease_contrast (decrease_contrast (2/10))) = 1/10 := by
  refine ⟨rfl, rfl, (contrast_run_bounds ops c h1 h2).1, (contrast_run_bounds ops c h1 h2).2, ?_⟩
  norm_num [decrease_contrast, max_def]

/-- C5 witness: the statement instantiated at 0.2 with three decreases. -/
theorem C5_contrast_witness :
    (1/10 ≤ (2/10 : ℚ)) ∧ ((2/10 : ℚ) ≤ 3) ∧
    (increase_contrast (2/10) = min 3 ((2/10 : ℚ) + 1/10) ∧
     decrease_contrast (2/10) = max (1/10) ((2/10 : ℚ) - 1/10) ∧
     1/10 ≤ contrast_run (2/10) [false, false, false] ∧
     contrast_run (2/10) [false, false, false] ≤ 3 ∧
     decrease_contrast (decrease_contrast (decrease_contrast (2/10))) = 1/10) :=
  ⟨by norm_num, by norm_num,
    C5_contrast_adjustment (2/10) (by norm_num) (by norm_num) [false, false, false]⟩

/-- C6: with contrast 1.0 and brightness 0 the transform is the identity
on every well-formed (uint8) frame. -/
theorem C6_identity_transform (img : Frame) (h : WellFormed img) :
    adjust_brightness_contrast img { brightness := 0, contrast := 1 } = img := by
  show mapFrame (convertScaleAbsSample 1 0) img = img
  apply mapFrame_eq_self
  intro row hrow px hpx s hs
  exact convertScaleAbsSample_identity s (h row hrow px hpx s hs)

/-- C6 witness: identity on a concrete two-row frame. -/
theorem C6_identity_witness :
    WellFormed [[[0, 128, 255]], [[7]]] ∧
    adjust_brightness_contrast [[[0, 128, 255]], [[7]]] { brightness := 0, contrast := 1 } =
      [[[0, 128, 255]], [[7]]] :=
  ⟨by decide, C6_identity_transform [[[0, 128, 255]], [[7]]] (by decide)⟩

/-- C7: a failed capture call (camera not initialized, no handle, or the
device returns no frame) returns `None` and leaves the whole pipeline
state - `is_initialized`, `cap` and the settings - unchanged. -/
theorem C7_capture_failure (read_res : PyResult Bool) (frame : Frame) (ps : PipelineState)
    (h : ps.webcam.is_initialized = false ∨ ps.webcam.cap = false ∨ read_res = .ok false) :
    app_capture_frame read_res frame ps = (.ok none, ps) := by
  unfold app_capture_frame
  rw [capture_frame_fail read_res frame ps.webcam h]

/-- C7 witness: a ready pipeline whose device returns no frame. -/
theorem C7_capture_failure_witness :
    (psReady.webcam.is_initialized = false ∨ psReady.webcam.cap = false ∨
      (Except.ok false : PyResult Bool) = .ok false) ∧
    app_capture_frame (.ok false) [] psReady = (.ok none, psReady) :=
  ⟨Or.inr (Or.inr rfl), C7_capture_failure (.ok false) [] psReady (Or.inr (Or.inr rfl))⟩

/-- C8 (counterexample): two single-shot runs at different clock times (0
and 1) with no filename typed write the same file name - the source never
reads the clock, so the claimed distinct timestamp-based names are false. -/
theorem C8_claim_counterexample :
    (0 : ℕ) ≠ 1 ∧ single_shot_filename 0 "" = single_shot_filename 1 "" :=
  ⟨by decide, rfl⟩

/-- C8 (amended): the single-shot file name is independent of the clock
time: it is the name the user typed, or the fixed default
`captura_unica.jpg` when the input is empty. -/
theorem C8_amended_filename (t1 t2 : ℕ) (user : String) (hu : user ≠ "") :
    single_shot_filename t1 user = single_shot_filename t2 user ∧
    single_shot_filename t1 "" = "captura_unica.jpg" ∧
    single_shot_filename t1 user = user := by
  refine ⟨rfl, rfl, ?_⟩
  simp [single_shot_filename, hu]

/-- C8 (amended) witness: at times 5 and 9 with input "x". -/
theorem C8_amended_filename_witness :
    ("x" : String) ≠ "" ∧
    (single_shot_filename 5 "x" = single_shot_filename 9 "x" ∧
     single_shot_filename 5 "" = "captura_unica.jpg" ∧
     single_shot_filename 5 "x" = "x") :=
  ⟨by decide, C8_amended_filename 5 9 "x" (by decide)⟩

/-- C9 (counterexample): a single-shot run whose device fails to open is a
top-level failure, yet the process exit code is 0, not 1: `main` catches
every exception and the script never sets an exit status. -/
theorem C9_claim_counterexample :
    (capture_single_image mainEnvFail.env ImageSettings.init WebcamState.init).1 = .ok false ∧
    main_exit_code mainEnvFail = 0 ∧ main_exit_code mainEnvFail ≠ 1 := by
  have h0 : main_exit_code mainEnvFail = 0 := rfl
  exact ⟨rfl, h0, by rw [h0]; decide⟩

/-- C9 (amended): the process exit code is 0 on every run - on success
and equally on failed device open, failed capture, failed save, keyboard
interrupt or an unexpected exception, all of which `main` catches. -/
theorem C9_amended_exit_code (m : MainEnv) : main_exit_code m = 0 := by
  unfold main_exit_code main process_exit_code
  cases h : main_body m with
  | ok u => rfl
  | error e => cases e <;> rfl

/-- C10: if the underlying transform raises inside
`adjust_brightness_contrast`, the error is not propagated: the original
input frame is returned unchanged. -/
theorem C10_exception_fallback (tr : Frame → ImageSettings → Option Frame)
    (image : Frame) (settings : ImageSettings) (h : tr image settings = none) :
    adjust_with tr image settings = image := by
  unfold adjust_with
  rw [h]

/-- C10 witness: a transform that always raises returns the input frame. -/
theorem C10_exception_fallback_witness :
    (fun (_ : Frame) (_ : ImageSettings) => (none : Option Frame)) [[[1]]] ImageSettings.init =
      none ∧
    adjust_with (fun _ _ => none) [[[1]]] ImageSettings.init = [[[1]]] :=
  ⟨rfl, C10_exception_fallback (fun _ _ => none) [[[1]]] ImageSettings.init rfl⟩

end Pureba
